import Mathlib

/-
Shallow embedding of src/src/app/components/carousel/carousel.component.ts
(CarouselComponent).  The component is single-threaded, event-driven glue
around three external collaborators whose relevant, documented semantics are
embedded alongside the component's own code:
  - lodash debounce (trailing edge, default wait 0) backing the private
    debounced member reinitializeImpl;
  - an rxjs Subject piped through distinctUntilChanged backing indexChange
    (next on a completed subject is a no-op; the operator forwards a value
    only when it differs from the last forwarded one);
  - Angular ViewContainerRef / ComponentRef (indexOf yields -1 for an absent
    view, remove clamps an index past the end to the last view and ignores a
    negative index, destroy on an already destroyed component is a no-op).
The component itself is modelled as a state machine driven by its lifecycle
hooks (ngAfterViewInit, ngOnChanges, ngOnDestroy), the swiper callback
indexChanged, and the debounce timer expiry (tick).  Machine integers are
Nat/Int; JS undefined results of out-of-range array indexing are Option.none.
-/

/-- A slide slot: a DOM placeholder produced by the swiper engine, carrying
the logical index read from its data-index attribute (root.dataset.index). -/
structure Slot where
  index : Nat
deriving DecidableEq, Repr

/-- An instantiated CarouselItemComponent reference.  id is a creation
counter distinguishing instances; iterationId is the data injected by
updateItemComponent (none models JS undefined); root is the slot whose DOM
node the view's root nodes were appended under. -/
structure ItemComponent where
  id : Nat
  iterationId : Option Int
  root : Option Slot
deriving DecidableEq, Repr

/-- Commands issued to the swiper engine, in program order. -/
inductive EngineCmd where
  | autoplayStop
  | autoplayStart
  | slideToLoop (index : Int) (speed : Option Nat)
deriving DecidableEq, Repr

/-- Abstract operations performed during one run of reinitializeImpl, in
program order: destroying an old binding (destroyItemComponent), querying the
DOM for the current slots (selectItemComponentRoots), creating a binding for
a slot (createItemComponentForRoot), and the final forced change-detection
pass (changeDetector.detectChanges). -/
inductive RebuildOp where
  | destroyBinding (id : Nat)
  | discoverSlots
  | createBinding (id : Nat)
  | detectChanges
deriving DecidableEq, Repr

/-- Events driving the component: the Angular lifecycle hooks, the swiper
index-change callback (carrying the value +element.dataset.index read from
the active slide), and expiry of the lodash debounce timer (carrying the
current time and the slots the DOM holds at that moment, which
selectItemComponentRoots would discover). ngOnChanges carries some newIds
exactly when the SimpleChanges record contains the ids key. -/
inductive CEvent where
  | ngOnChanges (newIds : Option (List Int)) (t : Nat)
  | ngAfterViewInit (t : Nat)
  | ngOnDestroy
  | indexChanged (index : Int)
  | tick (t : Nat) (slots : List Slot)
deriving DecidableEq, Repr

/-- The component's state.  ids, components and the swiper handle are the
fields of CarouselComponent; subjectClosed / lastEmitted embed the rxjs
Subject + distinctUntilChanged pair; pendingAt embeds the armed lodash
debounce timer (absolute fire time).  emitted, destroyedIds and rebuilds are
observation logs: values forwarded on indexChange, ids of components passed
to destroyItemComponent, and completed runs of reinitializeImpl. -/
structure CarouselState where
  ids : List Int
  swiper : Bool
  components : Option (List ItemComponent)
  subjectClosed : Bool
  lastEmitted : Option Int
  pendingAt : Option Nat
  nextId : Nat
  emitted : List Int
  destroyedIds : List Nat
  rebuilds : Nat
deriving DecidableEq, Repr

/-- The debounce wait of the private reinitialize member: the source calls
lodash debounce(reinitializeImpl) with no wait argument, and lodash defaults
the wait to 0. -/
def reinitializeWait : Nat := 0

/-- updateItemComponent: sets instance.iterationId to the given data and runs
the component's own change detection. -/
def updateItemComponent (c : ItemComponent) (data : Option Int) : ItemComponent :=
  { c with iterationId := data }

/-- createItemComponent: viewContainer.createComponent(itemFactory) followed
by updateItemComponent(component, data). -/
def createItemComponent (nextId : Nat) (data : Option Int) : ItemComponent :=
  updateItemComponent { id := nextId, iterationId := none, root := none } data

/-- createItemComponentForRoot: reads index from root.dataset.index, looks up
this.ids[index] (undefined, i.e. none, when out of range), creates the item
component and appends its root nodes under the slot's DOM node. -/
def createItemComponentForRoot (ids : List Int) (nextId : Nat) (root : Slot) :
    ItemComponent :=
  let data := ids.get? root.index
  let c := createItemComponent nextId data
  { c with root := some root }

/-- The private initialize method: discovers the slot roots and maps
createItemComponentForRoot over them (lodash map), threading the creation
counter.  Returns the new components list and the updated counter. -/
def initializeFn (ids : List Int) (slots : List Slot) (nextId : Nat) :
    List ItemComponent × Nat :=
  match slots with
  | [] => ([], nextId)
  | r :: rest =>
    (createItemComponentForRoot ids nextId r :: (initializeFn ids rest (nextId + 1)).1,
     (initializeFn ids rest (nextId + 1)).2)

/-- The private destroy method's effect on the components field: lodash
forEach over this.components (a no-op when it is undefined) passing each
component to destroyItemComponent; returns the ids so destroyed. -/
def destroyFn (comps : Option (List ItemComponent)) : List Nat :=
  (comps.getD []).map (fun c => c.id)

/-- reinitializeImpl, the function wrapped by lodash debounce:
this.destroy(); this.initialize(); this.changeDetector.detectChanges().
Returns the new state together with the ordered log of operations
performed. -/
def reinitializeImpl (s : CarouselState) (slots : List Slot) :
    CarouselState × List RebuildOp :=
  let destroyed := destroyFn s.components
  let built := initializeFn s.ids slots s.nextId
  ({ s with
      components := some built.1,
      nextId := built.2,
      destroyedIds := s.destroyedIds ++ destroyed,
      rebuilds := s.rebuilds + 1 },
   destroyed.map RebuildOp.destroyBinding
     ++ RebuildOp.discoverSlots :: built.1.map (fun c => RebuildOp.createBinding c.id)
     ++ [RebuildOp.detectChanges])

/-- The component's state just after construction: the constructor builds the
subject and the distinctUntilChanged pipe; ids holds the caller's initial
input binding; no swiper handle, no components, no armed timer. -/
def initState (ids0 : List Int) : CarouselState :=
  { ids := ids0, swiper := false, components := none, subjectClosed := false,
    lastEmitted := none, pendingAt := none, nextId := 0, emitted := [],
    destroyedIds := [], rebuilds := 0 }

/-- One event of the component's life.
ngOnChanges: Angular has written the new ids input; the body requests the
debounced reinitialize only when the changes record has the ids key and
this.swiper is set.
ngAfterViewInit: binds the swiper handle and requests reinitialize.
ngOnDestroy: completes the subject, cancels the debounce timer, destroys all
components.
indexChanged: indexChangeSubject.next(index); a completed subject drops the
value, distinctUntilChanged drops a value equal to the last forwarded one.
tick: the debounce timer fires when armed and due, running reinitializeImpl
against the slots currently in the DOM. -/
def step (s : CarouselState) : CEvent → CarouselState
  | CEvent.ngOnChanges newIds t =>
    match newIds with
    | some ids1 =>
      let s1 := { s with ids := ids1 }
      if s1.swiper then { s1 with pendingAt := some (t + reinitializeWait) } else s1
    | none => s
  | CEvent.ngAfterViewInit t =>
    { s with swiper := true, pendingAt := some (t + reinitializeWait) }
  | CEvent.ngOnDestroy =>
    { s with
      subjectClosed := true,
      pendingAt := none,
      components := none,
      destroyedIds := s.destroyedIds ++ destroyFn s.components }
  | CEvent.indexChanged i =>
    if s.subjectClosed then s
    else if s.lastEmitted = some i then s
    else { s with lastEmitted := some i, emitted := s.emitted ++ [i] }
  | CEvent.tick t slots =>
    match s.pendingAt with
    | some p =>
      if p ≤ t then (reinitializeImpl { s with pendingAt := none } slots).1 else s
    | none => s

/-- Runs the component over a sequence of events. -/
def runEvents (s : CarouselState) (tr : List CEvent) : CarouselState :=
  tr.foldl step s

/-- True for the events the environment can still deliver after ngOnDestroy:
swiper callbacks and timer expiries.  Angular never invokes lifecycle hooks
on a destroyed component. -/
def isEngineEvent : CEvent → Bool
  | CEvent.indexChanged _ => true
  | CEvent.tick _ _ => true
  | _ => false

/-- True exactly for the ngAfterViewInit lifecycle event. -/
def isAttachEvent : CEvent → Bool
  | CEvent.ngAfterViewInit _ => true
  | _ => false

/-- True for destroyBinding operations. -/
def isDestroyOp : RebuildOp → Bool
  | RebuildOp.destroyBinding _ => true
  | _ => false

/-- True for createBinding operations. -/
def isCreateOp : RebuildOp → Bool
  | RebuildOp.createBinding _ => true
  | _ => false

/-- True for the discoverSlots operation. -/
def isDiscoverOp : RebuildOp → Bool
  | RebuildOp.discoverSlots => true
  | _ => false

mutual

/-- slideTo(index, speed?): this.stopAutoplay() (reset defaulted to false)
and then this.swiper.slideToLoop(index, speed), as the stream of engine
commands issued. -/
def slideTo (index : Int) (speed : Option Nat) : List EngineCmd :=
  stopAutoplay false ++ [EngineCmd.slideToLoop index speed]
termination_by (1 : Nat)

/-- stopAutoplay(reset = false): when reset, first this.slideTo(0, 0); then
this.swiper.autoplay.stop(). -/
def stopAutoplay (reset : Bool) : List EngineCmd :=
  (match reset with
   | true => slideTo 0 (some 0)
   | false => []) ++ [EngineCmd.autoplayStop]
termination_by (match reset with | true => 2 | false => 0 : Nat)

end

/-- startAutoplay(reset = false): when reset, first this.slideTo(0, 0); then
this.swiper.autoplay.start(). -/
def startAutoplay (reset : Bool) : List EngineCmd :=
  (if reset then slideTo 0 (some 0) else []) ++ [EngineCmd.autoplayStart]

/-- Events seen by a lodash-debounced function: a call of the wrapper at
time t, and the timer check at time t. -/
inductive DEvent where
  | req (t : Nat)
  | tick (t : Nat)
deriving DecidableEq, Repr

/-- State of a lodash-debounced function: the armed timer's absolute fire
time, and the log of times at which the wrapped function was invoked. -/
structure DState where
  pendingAt : Option Nat
  execs : List Nat
deriving DecidableEq, Repr

/-- A debounced function starts with no armed timer and no invocations. -/
def dInit : DState := { pendingAt := none, execs := [] }

/-- lodash debounce, trailing edge (the default): every call re-arms the
timer to fire wait after that call; when the timer is checked at or past the
armed time the wrapped function is invoked once and the timer cleared. -/
def dStep (wait : Nat) (s : DState) : DEvent → DState
  | DEvent.req t => { s with pendingAt := some (t + wait) }
  | DEvent.tick t =>
    match s.pendingAt with
    | some p => if p ≤ t then { pendingAt := none, execs := s.execs ++ [t] } else s
    | none => s

/-- Runs a debounced function over a sequence of events. -/
def runDeb (wait : Nat) (s : DState) (es : List DEvent) : DState :=
  es.foldl (dStep wait) s

/-- Array.prototype.indexOf as used on the view container's list of attached
host views: position of the first occurrence, -1 when absent. -/
def viewIndexOf : List Nat → Nat → Int
  | [], _ => -1
  | x :: xs, v =>
    if x = v then 0
    else if viewIndexOf xs v = -1 then -1 else viewIndexOf xs v + 1

/-- Angular ViewContainerRef.remove(i) on the container's view list: an index
at or past the end is clamped to the last view, a negative index detaches and
destroys nothing. -/
def viewContainerRemove (views : List Nat) (i : Int) : List Nat :=
  let j : Int := if (views.length : Int) ≤ i then (views.length : Int) - 1 else i
  if j < 0 then views else views.eraseIdx j.toNat

/-- The view container's list of attached host views (by component id) and
the components whose destruction has completed. -/
structure BinderState where
  views : List Nat
  destroyedSet : List Nat
deriving DecidableEq, Repr

/-- Angular ComponentRef.destroy(): destroys the view, a no-op when it is
already destroyed. -/
def componentDestroy (destroyedSet : List Nat) (cid : Nat) : List Nat :=
  if cid ∈ destroyedSet then destroyedSet else destroyedSet ++ [cid]

/-- destroyItemComponent:
viewContainer.remove(viewContainer.indexOf(component.hostView)) and then
component.destroy(). -/
def destroyItemComponent (st : BinderState) (cid : Nat) : BinderState :=
  { views := viewContainerRemove st.views (viewIndexOf st.views cid),
    destroyedSet := componentDestroy st.destroyedSet cid }

/-- initialize creates exactly one component per discovered slot root. -/
theorem initializeFn_length (ids : List Int) (slots : List Slot) (n : Nat) :
    (initializeFn ids slots n).1.length = slots.length := by
  induction slots generalizing n with
  | nil => rfl
  | cons r rest ih => simp [initializeFn, ih]

/-- The counter after initialize advanced by one per slot. -/
theorem initializeFn_snd (ids : List Int) (slots : List Slot) (n : Nat) :
    (initializeFn ids slots n).2 = n + slots.length := by
  induction slots generalizing n with
  | nil => simp [initializeFn]
  | cons r rest ih =>
    simp only [initializeFn, ih, List.length_cons]
    omega

/-- The component built for the k-th slot root: id n + k, data
ids[slot.index], attached under that slot. -/
theorem initializeFn_get (ids : List Int) (slots : List Slot) (n k : Nat) (slot : Slot)
    (h : slots.get? k = some slot) :
    (initializeFn ids slots n).1.get? k
      = some { id := n + k, iterationId := ids.get? slot.index, root := some slot } := by
  induction slots generalizing n k with
  | nil => simp at h
  | cons r rest ih =>
    cases k with
    | zero =>
      rw [List.get?_cons_zero, Option.some.injEq] at h
      subst h
      simp [initializeFn, createItemComponentForRoot, createItemComponent,
        updateItemComponent]
    | succ k =>
      rw [List.get?_cons_succ] at h
      have h2 := ih (n + 1) k h
      simp only [initializeFn, List.get?_cons_succ]
      rw [h2]
      simp only [Option.some.injEq, ItemComponent.mk.injEq, and_true, true_and]
      omega

/-- Every component built by initialize has id at least the starting
counter. -/
theorem initializeFn_id_ge (ids : List Int) (slots : List Slot) (n : Nat) :
    ∀ c ∈ (initializeFn ids slots n).1, n ≤ c.id := by
  induction slots generalizing n with
  | nil => intro c hc; simp [initializeFn] at hc
  | cons r rest ih =>
    intro c hc
    simp only [initializeFn, List.mem_cons] at hc
    rcases hc with rfl | hc
    · simp [createItemComponentForRoot, createItemComponent, updateItemComponent]
    · have := ih (n + 1) c hc
      omega

/-- Every component built by initialize has id below the final counter. -/
theorem initializeFn_id_lt (ids : List Int) (slots : List Slot) (n : Nat) :
    ∀ c ∈ (initializeFn ids slots n).1, c.id < n + slots.length := by
  induction slots generalizing n with
  | nil => intro c hc; simp [initializeFn] at hc
  | cons r rest ih =>
    intro c hc
    simp only [initializeFn, List.mem_cons] at hc
    rcases hc with rfl | hc
    · simp only [createItemComponentForRoot, createItemComponent, updateItemComponent,
        List.length_cons]
      omega
    · have := ih (n + 1) c hc
      simp only [List.length_cons]
      omega

/-- All live components carry ids below the creation counter. -/
def idsBelow (s : CarouselState) : Prop :=
  ∀ c ∈ s.components.getD [], c.id < s.nextId

/-- Each event preserves the id bound on live components. -/
theorem idsBelow_step (s : CarouselState) (e : CEvent) (h : idsBelow s) :
    idsBelow (step s e) := by
  cases e with
  | ngOnChanges newIds t =>
    cases newIds with
    | none => exact h
    | some ids1 =>
      simp only [step]
      split
      · intro c hc; exact h c hc
      · intro c hc; exact h c hc
  | ngAfterViewInit t =>
    intro c hc; exact h c hc
  | ngOnDestroy =>
    intro c hc
    simp [step] at hc
  | indexChanged i =>
    simp only [step]
    split
    · exact h
    · split
      · exact h
      · intro c hc; exact h c hc
  | tick t slots =>
    simp only [step]
    split
    · split
      · intro c hc
        simp only [reinitializeImpl, Option.getD_some] at hc
        have h2 := initializeFn_id_lt s.ids slots s.nextId c hc
        simp only [reinitializeImpl, initializeFn_snd]
        omega
      · exact h
    · exact h

/-- Fold-style induction principle for the carousel machine. -/
theorem runEvents_preserve (P : CarouselState → Prop)
    (hP : ∀ s e, P s → P (step s e)) :
    ∀ (tr : List CEvent) (s : CarouselState), P s → P (runEvents s tr) := by
  intro tr
  induction tr with
  | nil => intro s h; exact h
  | cons e rest ih =>
    intro s h
    exact ih (step s e) (hP s e h)

/-- The id bound holds in every reachable state. -/
theorem idsBelow_run (ids0 : List Int) (tr : List CEvent) :
    idsBelow (runEvents (initState ids0) tr) :=
  runEvents_preserve idsBelow idsBelow_step tr (initState ids0)
    (by intro c hc; simp [initState] at hc)

/-- A due, armed debounce timer fires reinitializeImpl against the slots
present in the DOM at that moment. -/
theorem step_tick_fires (s : CarouselState) (t p : Nat) (slots : List Slot)
    (hp : s.pendingAt = some p) (hpt : p ≤ t) :
    step s (CEvent.tick t slots)
      = (reinitializeImpl { s with pendingAt := none } slots).1 := by
  simp [step, hp, hpt]

/-- Running a concatenation of traces runs them in sequence. -/
theorem runEvents_append (s : CarouselState) (tr1 tr2 : List CEvent) :
    runEvents s (tr1 ++ tr2) = runEvents (runEvents s tr1) tr2 := by
  simp [runEvents, List.foldl_append]

/-- Invariant tying together the distinctUntilChanged memory and the values
forwarded so far: no two consecutive forwarded values are equal, and the
operator's memory is exactly the last forwarded value. -/
def emitInvariant (s : CarouselState) : Prop :=
  List.Chain' (fun a b => a ≠ b) s.emitted ∧
  (s.lastEmitted = none → s.emitted = []) ∧
  (∀ v, s.lastEmitted = some v → s.emitted.getLast? = some v)

/-- Each event preserves the emission invariant. -/
theorem emitInvariant_step (s : CarouselState) (e : CEvent) (h : emitInvariant s) :
    emitInvariant (step s e) := by
  obtain ⟨h1, h2, h3⟩ := h
  cases e with
  | ngOnChanges newIds t =>
    cases newIds with
    | none => exact ⟨h1, h2, h3⟩
    | some ids1 =>
      simp only [step]
      split
      · exact ⟨h1, h2, h3⟩
      · exact ⟨h1, h2, h3⟩
  | ngAfterViewInit t => exact ⟨h1, h2, h3⟩
  | ngOnDestroy => exact ⟨h1, h2, h3⟩
  | tick t slots =>
    simp only [step]
    split
    · split
      · exact ⟨h1, h2, h3⟩
      · exact ⟨h1, h2, h3⟩
    · exact ⟨h1, h2, h3⟩
  | indexChanged i =>
    by_cases hc : s.subjectClosed = true
    · simp only [step, hc, if_true]
      exact ⟨h1, h2, h3⟩
    · simp only [step, if_neg hc]
      by_cases hl : s.lastEmitted = some i
      · simp only [hl, if_true]
        exact ⟨h1, h2, h3⟩
      · simp only [if_neg hl]
        refine ⟨?_, ?_, ?_⟩
        · rw [List.chain'_append]
          refine ⟨h1, List.chain'_singleton i, ?_⟩
          intro x hx y hy
          simp only [List.head?_cons, Option.mem_def, Option.some.injEq] at hy
          subst hy
          cases hle : s.lastEmitted with
          | none =>
            rw [h2 hle] at hx
            simp at hx
          | some v =>
            rw [h3 v hle] at hx
            simp only [Option.mem_def, Option.some.injEq] at hx
            subst hx
            intro hxy
            exact hl (hxy ▸ hle)
        · intro hnone
          simp at hnone
        · intro v hv
          simp only [Option.some.injEq] at hv
          subst hv
          simp [List.getLast?_concat]

/-- The emission invariant holds in every reachable state. -/
theorem emitInvariant_run (ids0 : List Int) (tr : List CEvent) :
    emitInvariant (runEvents (initState ids0) tr) :=
  runEvents_preserve emitInvariant emitInvariant_step tr (initState ids0)
    ⟨List.chain'_nil, fun _ => rfl, fun v hv => by simp [initState] at hv⟩

/-- Once the subject is completed and the debounce timer disarmed, engine
events leave the state untouched. -/
theorem step_quiescent (s : CarouselState) (e : CEvent)
    (h1 : s.subjectClosed = true) (h2 : s.pendingAt = none)
    (he : isEngineEvent e = true) :
    step s e = s := by
  cases e with
  | indexChanged i => simp [step, h1]
  | tick t slots => simp [step, h2]
  | ngOnChanges newIds t => simp [isEngineEvent] at he
  | ngAfterViewInit t => simp [isEngineEvent] at he
  | ngOnDestroy => simp [isEngineEvent] at he

/-- Once the subject is completed and the timer disarmed, any sequence of
engine events leaves the state untouched. -/
theorem runEvents_quiescent (s : CarouselState) (post : List CEvent)
    (h1 : s.subjectClosed = true) (h2 : s.pendingAt = none)
    (hpost : ∀ e ∈ post, isEngineEvent e = true) :
    runEvents s post = s := by
  induction post with
  | nil => rfl
  | cons e rest ih =>
    have hse : step s e = s :=
      step_quiescent s e h1 h2 (hpost e (List.mem_cons_self e rest))
    have hr : runEvents s (e :: rest) = runEvents (step s e) rest := rfl
    rw [hr, hse]
    exact ih (fun x hx => hpost x (List.mem_cons_of_mem e hx))

/-- State of the component before the view has ever been attached: no swiper
handle, no armed timer, no completed rebuild, no components. -/
def preAttach (s : CarouselState) : Prop :=
  s.swiper = false ∧ s.pendingAt = none ∧ s.rebuilds = 0 ∧ s.components = none

/-- Every event except ngAfterViewInit preserves the pre-attachment state: in
particular an ids replacement does not arm the debounce timer while the
swiper handle is unbound. -/
theorem preAttach_step (s : CarouselState) (e : CEvent)
    (he : isAttachEvent e = false) (h : preAttach s) : preAttach (step s e) := by
  obtain ⟨hsw, hp, hr, hc⟩ := h
  cases e with
  | ngOnChanges newIds t =>
    cases newIds with
    | none => exact ⟨hsw, hp, hr, hc⟩
    | some ids1 =>
      simp only [step]
      rw [if_neg (by simp [hsw])]
      exact ⟨hsw, hp, hr, hc⟩
  | ngAfterViewInit t => simp [isAttachEvent] at he
  | ngOnDestroy => exact ⟨hsw, rfl, hr, rfl⟩
  | indexChanged i =>
    simp only [step]
    split
    · exact ⟨hsw, hp, hr, hc⟩
    · split
      · exact ⟨hsw, hp, hr, hc⟩
      · exact ⟨hsw, hp, hr, hc⟩
  | tick t slots =>
    simp only [step, hp]
    exact ⟨hsw, hp, hr, hc⟩

/-- Fold-style induction with a side condition on the events of the trace. -/
theorem runEvents_preserve_on (P : CarouselState → Prop) (Q : CEvent → Prop)
    (hP : ∀ s e, Q e → P s → P (step s e)) :
    ∀ (tr : List CEvent) (s : CarouselState),
      (∀ e ∈ tr, Q e) → P s → P (runEvents s tr) := by
  intro tr
  induction tr with
  | nil => intro s _ h; exact h
  | cons e rest ih =>
    intro s hq h
    exact ih (step s e) (fun x hx => hq x (List.mem_cons_of_mem e hx))
      (hP s e (hq e (List.mem_cons_self e rest)) h)

/-- A trace free of ngAfterViewInit keeps the component in its
pre-attachment state. -/
theorem preAttach_run (ids0 : List Int) (tr : List CEvent)
    (h : ∀ e ∈ tr, isAttachEvent e = false) :
    preAttach (runEvents (initState ids0) tr) :=
  runEvents_preserve_on preAttach (fun e => isAttachEvent e = false)
    preAttach_step tr (initState ids0) h ⟨rfl, rfl, rfl, rfl⟩

/-- Calls of a debounced wrapper do not invoke the wrapped function. -/
theorem runDeb_reqs_execs (w : Nat) (ts : List Nat) (s : DState) :
    (runDeb w s (ts.map DEvent.req)).execs = s.execs := by
  induction ts generalizing s with
  | nil => rfl
  | cons a rest ih => exact ih (dStep w s (DEvent.req a))

/-- After a burst of calls the timer is armed for the last call plus the
wait. -/
theorem runDeb_reqs_pendingAt (w : Nat) (ts : List Nat) (t : Nat) (s : DState) :
    (runDeb w s (ts.map DEvent.req ++ [DEvent.req t])).pendingAt = some (t + w) := by
  induction ts generalizing s with
  | nil => rfl
  | cons a rest ih => exact ih (dStep w s (DEvent.req a))

/-- Array.prototype.indexOf yields -1 exactly when the value is absent. -/
theorem viewIndexOf_not_mem (l : List Nat) (v : Nat) (h : v ∉ l) :
    viewIndexOf l v = -1 := by
  induction l with
  | nil => rfl
  | cons x xs ih =>
    have hx : ¬(x = v) := fun hxv => h (hxv ▸ List.mem_cons_self x xs)
    have hxs : v ∉ xs := fun hm => h (List.mem_cons_of_mem x hm)
    simp [viewIndexOf, hx, ih hxs]

/-- ViewContainerRef.remove(-1) detaches nothing. -/
theorem viewContainerRemove_neg_one (l : List Nat) :
    viewContainerRemove l (-1) = l := by
  have hlen : ¬((l.length : Int) ≤ -1) := by omega
  simp [viewContainerRemove, hlen]

/-- Filtering keeps a list all of whose elements satisfy the predicate. -/
theorem filterOfAllTrue {α : Type} (p : α → Bool) (l : List α)
    (h : ∀ a ∈ l, p a = true) : l.filter p = l := by
  induction l with
  | nil => rfl
  | cons a rest ih =>
    simp [List.filter_cons, h a (List.mem_cons_self a rest),
      ih (fun x hx => h x (List.mem_cons_of_mem a hx))]

/-- Filtering drops a list none of whose elements satisfy the predicate. -/
theorem filterOfAllFalse {α : Type} (p : α → Bool) (l : List α)
    (h : ∀ a ∈ l, p a = false) : l.filter p = [] := by
  induction l with
  | nil => rfl
  | cons a rest ih =>
    simp [List.filter_cons, h a (List.mem_cons_self a rest),
      ih (fun x hx => h x (List.mem_cons_of_mem a hx))]

/-- Filter calculus for an operation log of the rebuild shape: destroys, then
the single discovery, then creates, then the change-detection pass. -/
theorem rebuildOpsFilters (ds cs : List Nat) :
    (ds.map RebuildOp.destroyBinding
      ++ RebuildOp.discoverSlots :: cs.map RebuildOp.createBinding
      ++ [RebuildOp.detectChanges]).filter isDestroyOp
        = ds.map RebuildOp.destroyBinding ∧
    (ds.map RebuildOp.destroyBinding
      ++ RebuildOp.discoverSlots :: cs.map RebuildOp.createBinding
      ++ [RebuildOp.detectChanges]).filter isCreateOp
        = cs.map RebuildOp.createBinding ∧
    (ds.map RebuildOp.destroyBinding
      ++ RebuildOp.discoverSlots :: cs.map RebuildOp.createBinding
      ++ [RebuildOp.detectChanges]).filter isDiscoverOp
        = [RebuildOp.discoverSlots] ∧
    ((ds.map RebuildOp.destroyBinding
      ++ RebuildOp.discoverSlots :: cs.map RebuildOp.createBinding
      ++ [RebuildOp.detectChanges]).filter fun o => isDestroyOp o || isCreateOp o)
        = ds.map RebuildOp.destroyBinding ++ cs.map RebuildOp.createBinding ∧
    ((ds.map RebuildOp.destroyBinding
      ++ RebuildOp.discoverSlots :: cs.map RebuildOp.createBinding
      ++ [RebuildOp.detectChanges]).filter fun o => isDestroyOp o || isDiscoverOp o)
        = ds.map RebuildOp.destroyBinding ++ [RebuildOp.discoverSlots] ∧
    ((ds.map RebuildOp.destroyBinding
      ++ RebuildOp.discoverSlots :: cs.map RebuildOp.createBinding
      ++ [RebuildOp.detectChanges]).filter fun o => isDiscoverOp o || isCreateOp o)
        = RebuildOp.discoverSlots :: cs.map RebuildOp.createBinding ∧
    (ds.map RebuildOp.destroyBinding
      ++ RebuildOp.discoverSlots :: cs.map RebuildOp.createBinding
      ++ [RebuildOp.detectChanges]).getLast? = some RebuildOp.detectChanges := by
  have hdmem : ∀ (p : RebuildOp → Bool), (∀ x : Nat, p (RebuildOp.destroyBinding x) = true) →
      (ds.map RebuildOp.destroyBinding).filter p = ds.map RebuildOp.destroyBinding := by
    intro p hp
    refine filterOfAllTrue p _ ?_
    intro o ho
    obtain ⟨x, _, rfl⟩ := List.mem_map.1 ho
    exact hp x
  have hdmem0 : ∀ (p : RebuildOp → Bool), (∀ x : Nat, p (RebuildOp.destroyBinding x) = false) →
      (ds.map RebuildOp.destroyBinding).filter p = [] := by
    intro p hp
    refine filterOfAllFalse p _ ?_
    intro o ho
    obtain ⟨x, _, rfl⟩ := List.mem_map.1 ho
    exact hp x
  have hcmem : ∀ (p : RebuildOp → Bool), (∀ x : Nat, p (RebuildOp.createBinding x) = true) →
      (cs.map RebuildOp.createBinding).filter p = cs.map RebuildOp.createBinding := by
    intro p hp
    refine filterOfAllTrue p _ ?_
    intro o ho
    obtain ⟨x, _, rfl⟩ := List.mem_map.1 ho
    exact hp x
  have hcmem0 : ∀ (p : RebuildOp → Bool), (∀ x : Nat, p (RebuildOp.createBinding x) = false) →
      (cs.map RebuildOp.createBinding).filter p = [] := by
    intro p hp
    refine filterOfAllFalse p _ ?_
    intro o ho
    obtain ⟨x, _, rfl⟩ := List.mem_map.1 ho
    exact hp x
  refine ⟨?_, ?_, ?_, ?_, ?_, ?_, ?_⟩
  · rw [List.filter_append, List.filter_append, hdmem isDestroyOp (fun x => rfl),
      List.filter_cons_of_neg (by decide),
      hcmem0 isDestroyOp (fun x => rfl),
      List.filter_cons_of_neg (by decide), List.filter_nil]
    simp
  · rw [List.filter_append, List.filter_append, hdmem0 isCreateOp (fun x => rfl),
      List.filter_cons_of_neg (by decide),
      hcmem isCreateOp (fun x => rfl),
      List.filter_cons_of_neg (by decide), List.filter_nil]
    simp
  · rw [List.filter_append, List.filter_append, hdmem0 isDiscoverOp (fun x => rfl),
      List.filter_cons_of_pos (by decide),
      hcmem0 isDiscoverOp (fun x => rfl),
      List.filter_cons_of_neg (by decide), List.filter_nil]
    simp
  · rw [List.filter_append, List.filter_append,
      hdmem (fun o => isDestroyOp o || isCreateOp o) (fun x => rfl),
      List.filter_cons_of_neg (by decide),
      hcmem (fun o => isDestroyOp o || isCreateOp o) (fun x => rfl),
      List.filter_cons_of_neg (by decide), List.filter_nil]
    simp
  · rw [List.filter_append, List.filter_append,
      hdmem (fun o => isDestroyOp o || isDiscoverOp o) (fun x => rfl),
      List.filter_cons_of_pos (by decide),
      hcmem0 (fun o => isDestroyOp o || isDiscoverOp o) (fun x => rfl),
      List.filter_cons_of_neg (by decide), List.filter_nil]
    simp
  · rw [List.filter_append, List.filter_append,
      hdmem0 (fun o => isDiscoverOp o || isCreateOp o) (fun x => rfl),
      List.filter_cons_of_pos (by decide),
      hcmem (fun o => isDiscoverOp o || isCreateOp o) (fun x => rfl),
      List.filter_cons_of_neg (by decide), List.filter_nil]
    simp
  · exact List.getLast?_concat _

/-- C2: for every sequence of events processed by the component, the stream
of values forwarded on indexChange never holds two identical consecutive
values: a candidate equal to the immediately prior published value is
suppressed by distinctUntilChanged, even when the engine reports the same
active slot twice. -/
theorem c2_distinct_until_changed (ids0 : List Int) (tr : List CEvent) :
    List.Chain' (fun a b => a ≠ b) (runEvents (initState ids0) tr).emitted :=
  (emitInvariant_run ids0 tr).1

/-- C6: slideTo(index, speed) always issues the autoplay stop before the
loop-aware navigation request slideToLoop, for every index (including values
outside the current range) and every speed. -/
theorem c6_slideTo_stops_autoplay (index : Int) (speed : Option Nat) :
    slideTo index speed = [EngineCmd.autoplayStop, EngineCmd.slideToLoop index speed] := by
  simp [slideTo, stopAutoplay]

/-- C7: the operation log of one reinitializeImpl run keeps all destroys
before the discovery, the single discovery before all creates (hence every
destroy before every create), destroys exactly the previously tracked
components, creates one binding per discovered slot, and ends with the forced
change-detection pass. -/
theorem c7_rebuild_order (s : CarouselState) (slots : List Slot) :
    ((reinitializeImpl s slots).2.filter fun o => isDestroyOp o || isCreateOp o)
      = (reinitializeImpl s slots).2.filter isDestroyOp
        ++ (reinitializeImpl s slots).2.filter isCreateOp ∧
    ((reinitializeImpl s slots).2.filter fun o => isDestroyOp o || isDiscoverOp o)
      = (reinitializeImpl s slots).2.filter isDestroyOp
        ++ (reinitializeImpl s slots).2.filter isDiscoverOp ∧
    ((reinitializeImpl s slots).2.filter fun o => isDiscoverOp o || isCreateOp o)
      = (reinitializeImpl s slots).2.filter isDiscoverOp
        ++ (reinitializeImpl s slots).2.filter isCreateOp ∧
    (reinitializeImpl s slots).2.filter isDestroyOp
      = (destroyFn s.components).map RebuildOp.destroyBinding ∧
    ((reinitializeImpl s slots).2.filter isCreateOp).length = slots.length ∧
    (reinitializeImpl s slots).2.filter isDiscoverOp = [RebuildOp.discoverSlots] ∧
    (reinitializeImpl s slots).2.getLast? = some RebuildOp.detectChanges := by
  have hops : (reinitializeImpl s slots).2
      = (destroyFn s.components).map RebuildOp.destroyBinding
        ++ RebuildOp.discoverSlots
          :: ((initializeFn s.ids slots s.nextId).1.map (fun c => c.id)).map
              RebuildOp.createBinding
        ++ [RebuildOp.detectChanges] := by
    simp [reinitializeImpl, List.map_map]
  obtain ⟨h1, h2, h3, h4, h5, h6, h7⟩ :=
    rebuildOpsFilters (destroyFn s.components)
      ((initializeFn s.ids slots s.nextId).1.map (fun c => c.id))
  rw [hops, h1, h2, h3, h4, h5, h6, h7]
  refine ⟨rfl, rfl, rfl, rfl, ?_, rfl, rfl⟩
  simp [initializeFn_length]

/-- C9: destroying a child view binding that is already unbound (its host
view no longer in the view container, its component already destroyed) is a
no-op: the view container and the destruction record are left exactly as they
were. -/
theorem c9_double_teardown_noop (st : BinderState) (cid : Nat)
    (h1 : cid ∉ st.views) (h2 : cid ∈ st.destroyedSet) :
    destroyItemComponent st cid = st := by
  simp only [destroyItemComponent, componentDestroy, if_pos h2,
    viewIndexOf_not_mem st.views cid h1, viewContainerRemove_neg_one]

/-- C9 witness: unbinding component 7, already absent from the container and
already destroyed, leaves the binder state unchanged. -/
theorem c9_double_teardown_noop_witness :
    destroyItemComponent { views := [5], destroyedSet := [7] } 7
      = { views := [5], destroyedSet := [7] } :=
  c9_double_teardown_noop { views := [5], destroyedSet := [7] } 7
    (by decide) (by decide)

/-- C5: for every burst of calls of a debounced function followed by a timer
check at or after the last call plus the wait, the wrapped function runs
exactly once; a timer check strictly before the window has elapsed runs
nothing (trailing-edge debounce). -/
theorem c5_debounce_coalesce (w : Nat) (ts : List Nat) (t T1 T2 : Nat)
    (hT1 : t + w ≤ T1) (hT2 : T2 < t + w) :
    (runDeb w dInit (ts.map DEvent.req ++ [DEvent.req t, DEvent.tick T1])).execs = [T1] ∧
    (runDeb w dInit (ts.map DEvent.req ++ [DEvent.req t, DEvent.tick T2])).execs = [] := by
  have hre : ∀ T : Nat, ts.map DEvent.req ++ [DEvent.req t, DEvent.tick T]
      = (ts.map DEvent.req ++ [DEvent.req t]) ++ [DEvent.tick T] := by
    intro T; simp
  have hsplit : ∀ T : Nat,
      runDeb w dInit ((ts.map DEvent.req ++ [DEvent.req t]) ++ [DEvent.tick T])
        = dStep w (runDeb w dInit (ts.map DEvent.req ++ [DEvent.req t]))
            (DEvent.tick T) := by
    intro T; simp [runDeb, List.foldl_append]
  have hpend := runDeb_reqs_pendingAt w ts t dInit
  have hexe : (runDeb w dInit (ts.map DEvent.req ++ [DEvent.req t])).execs = [] := by
    have hmap : ts.map DEvent.req ++ [DEvent.req t] = (ts ++ [t]).map DEvent.req := by
      simp
    rw [hmap, runDeb_reqs_execs]
    rfl
  constructor
  · rw [hre T1, hsplit T1]
    simp [dStep, hpend, hexe, hT1]
  · rw [hre T2, hsplit T2]
    simp [dStep, hpend, hexe, show ¬(t + w ≤ T2) from by omega]

/-- C5 witness: with wait 2, calls at 1, 2 and 3 followed by a timer check at
6 run the function exactly once; a check at 4 (before 3 + 2) runs nothing. -/
theorem c5_debounce_coalesce_witness :
    (3 + 2 ≤ 6 ∧ 4 < 3 + 2) ∧
    ((runDeb 2 dInit ([1, 2].map DEvent.req ++ [DEvent.req 3, DEvent.tick 6])).execs
        = [6] ∧
      (runDeb 2 dInit ([1, 2].map DEvent.req ++ [DEvent.req 3, DEvent.tick 4])).execs
        = []) :=
  ⟨⟨by decide, by decide⟩, c5_debounce_coalesce 2 [1, 2] 3 6 4 (by decide) (by decide)⟩

/-- C10: the reconciliation debounce wait is the constant 0 (debounce is
called with no wait argument), an ids replacement arriving once the swiper is
bound arms the timer for the very time of the request, same-turn requests
coalesce into a single rebuild at the next timer check, and requests
separated by a timer check (different turns of the event loop) each produce
their own rebuild. -/
theorem c10_zero_debounce_wait (s : CarouselState) (ids1 : List Int)
    (t3 t T1 u T2 : Nat) (hsw : s.swiper = true) (hT1 : t ≤ T1) (hT2 : u ≤ T2) :
    reinitializeWait = 0 ∧
    (step s (CEvent.ngOnChanges (some ids1) t3)).pendingAt = some t3 ∧
    (runDeb reinitializeWait dInit
        [DEvent.req t, DEvent.req t, DEvent.tick T1]).execs = [T1] ∧
    (runDeb reinitializeWait dInit
        [DEvent.req t, DEvent.tick T1, DEvent.req u, DEvent.tick T2]).execs
      = [T1, T2] := by
  refine ⟨rfl, ?_, ?_, ?_⟩
  · simp [step, hsw, reinitializeWait]
  · simp [runDeb, dInit, List.foldl_cons, List.foldl_nil, dStep, reinitializeWait, hT1]
  · simp [runDeb, dInit, List.foldl_cons, List.foldl_nil, dStep, reinitializeWait, hT1, hT2]

/-- C10 witness: on a state with the swiper bound, an ids change at time 9
arms the timer for time 9 itself; two same-turn requests at 1 yield one
rebuild at the check at 2; requests at 1 and 3 separated by the check at 2
yield rebuilds at 2 and 4. -/
theorem c10_zero_debounce_wait_witness :
    (({ initState [3] with swiper := true } : CarouselState).swiper = true
        ∧ 1 ≤ 2 ∧ 3 ≤ 4) ∧
    (reinitializeWait = 0 ∧
      (step { initState [3] with swiper := true }
          (CEvent.ngOnChanges (some [5]) 9)).pendingAt = some 9 ∧
      (runDeb reinitializeWait dInit
          [DEvent.req 1, DEvent.req 1, DEvent.tick 2]).execs = [2] ∧
      (runDeb reinitializeWait dInit
          [DEvent.req 1, DEvent.tick 2, DEvent.req 3, DEvent.tick 4]).execs = [2, 4]) :=
  ⟨⟨rfl, by decide, by decide⟩,
    c10_zero_debounce_wait { initState [3] with swiper := true } [5] 9 1 2 3 4
      rfl (by decide) (by decide)⟩

/-- C1: when the debounce timer fires a reconciliation on a reachable state,
the rebuilt components are in bijection with the discovered slots: one
component per slot (loop duplicates included), the k-th component carries
exactly ids[slot.index] as injected data and hangs under the k-th slot, and
no component tracked before the reconciliation survives into the new set. -/
theorem c1_reconcile_bijection (ids0 : List Int) (tr : List CEvent) (t p k : Nat)
    (slots : List Slot) (slot : Slot)
    (hp : (runEvents (initState ids0) tr).pendingAt = some p)
    (hpt : p ≤ t)
    (hslot : slots.get? k = some slot) :
    ((step (runEvents (initState ids0) tr) (CEvent.tick t slots)).components.getD
        []).length = slots.length ∧
    (step (runEvents (initState ids0) tr) (CEvent.tick t slots)).components.isSome
      = true ∧
    (((step (runEvents (initState ids0) tr) (CEvent.tick t slots)).components.getD
        []).get? k).map (fun c => c.iterationId)
      = some ((runEvents (initState ids0) tr).ids.get? slot.index) ∧
    (((step (runEvents (initState ids0) tr) (CEvent.tick t slots)).components.getD
        []).get? k).map (fun c => c.root) = some (some slot) ∧
    List.Disjoint
      (((runEvents (initState ids0) tr).components.getD []).map (fun c => c.id))
      (((step (runEvents (initState ids0) tr) (CEvent.tick t slots)).components.getD
        []).map (fun c => c.id)) := by
  have hstep := step_tick_fires (runEvents (initState ids0) tr) t p slots hp hpt
  rw [hstep]
  have hcomp : ((reinitializeImpl
        { runEvents (initState ids0) tr with pendingAt := none } slots).1).components
      = some (initializeFn (runEvents (initState ids0) tr).ids slots
          (runEvents (initState ids0) tr).nextId).1 := rfl
  rw [hcomp]
  have hg := initializeFn_get (runEvents (initState ids0) tr).ids slots
    (runEvents (initState ids0) tr).nextId k slot hslot
  refine ⟨?_, rfl, ?_, ?_, ?_⟩
  · simp [initializeFn_length]
  · simp only [Option.getD_some]
    rw [hg]
    rfl
  · simp only [Option.getD_some]
    rw [hg]
    rfl
  · simp only [Option.getD_some]
    intro a ha hb
    obtain ⟨c, hc, rfl⟩ := List.mem_map.1 ha
    obtain ⟨c2, hc2, heq⟩ := List.mem_map.1 hb
    have hlt := idsBelow_run ids0 tr c hc
    have hge := initializeFn_id_ge (runEvents (initState ids0) tr).ids slots
      (runEvents (initState ids0) tr).nextId c2 hc2
    omega

/-- C1 witness: after attaching, one rebuild against a single slot and an ids
replacement arming the timer for time 1, the reconciliation at time 1 against
five slots (with loop duplicates) yields five components, the component at
position 3 carries ids[0] = 10 under slot 0, and no component of the previous
generation survives. -/
theorem c1_reconcile_bijection_witness :
    ((runEvents (initState [10, 20, 30])
        [CEvent.ngAfterViewInit 0, CEvent.tick 0 [⟨0⟩],
          CEvent.ngOnChanges (some [10, 20, 30]) 1]).pendingAt = some 1 ∧
      1 ≤ 1 ∧
      ([⟨0⟩, ⟨1⟩, ⟨2⟩, ⟨0⟩, ⟨1⟩] : List Slot).get? 3 = some ⟨0⟩) ∧
    (((step (runEvents (initState [10, 20, 30])
          [CEvent.ngAfterViewInit 0, CEvent.tick 0 [⟨0⟩],
            CEvent.ngOnChanges (some [10, 20, 30]) 1])
        (CEvent.tick 1 [⟨0⟩, ⟨1⟩, ⟨2⟩, ⟨0⟩, ⟨1⟩])).components.getD []).length
          = ([⟨0⟩, ⟨1⟩, ⟨2⟩, ⟨0⟩, ⟨1⟩] : List Slot).length ∧
      (step (runEvents (initState [10, 20, 30])
          [CEvent.ngAfterViewInit 0, CEvent.tick 0 [⟨0⟩],
            CEvent.ngOnChanges (some [10, 20, 30]) 1])
        (CEvent.tick 1 [⟨0⟩, ⟨1⟩, ⟨2⟩, ⟨0⟩, ⟨1⟩])).components.isSome = true ∧
      (((step (runEvents (initState [10, 20, 30])
          [CEvent.ngAfterViewInit 0, CEvent.tick 0 [⟨0⟩],
            CEvent.ngOnChanges (some [10, 20, 30]) 1])
        (CEvent.tick 1 [⟨0⟩, ⟨1⟩, ⟨2⟩, ⟨0⟩, ⟨1⟩])).components.getD []).get? 3).map
          (fun c => c.iterationId)
        = some ((runEvents (initState [10, 20, 30])
            [CEvent.ngAfterViewInit 0, CEvent.tick 0 [⟨0⟩],
              CEvent.ngOnChanges (some [10, 20, 30]) 1]).ids.get? (Slot.mk 0).index) ∧
      (((step (runEvents (initState [10, 20, 30])
          [CEvent.ngAfterViewInit 0, CEvent.tick 0 [⟨0⟩],
            CEvent.ngOnChanges (some [10, 20, 30]) 1])
        (CEvent.tick 1 [⟨0⟩, ⟨1⟩, ⟨2⟩, ⟨0⟩, ⟨1⟩])).components.getD []).get? 3).map
          (fun c => c.root) = some (some ⟨0⟩) ∧
      List.Disjoint
        (((runEvents (initState [10, 20, 30])
            [CEvent.ngAfterViewInit 0, CEvent.tick 0 [⟨0⟩],
              CEvent.ngOnChanges (some [10, 20, 30]) 1]).components.getD []).map
          (fun c => c.id))
        (((step (runEvents (initState [10, 20, 30])
            [CEvent.ngAfterViewInit 0, CEvent.tick 0 [⟨0⟩],
              CEvent.ngOnChanges (some [10, 20, 30]) 1])
          (CEvent.tick 1 [⟨0⟩, ⟨1⟩, ⟨2⟩, ⟨0⟩, ⟨1⟩])).components.getD []).map
          (fun c => c.id))) :=
  ⟨⟨by decide, by decide, by decide⟩,
    c1_reconcile_bijection [10, 20, 30]
      [CEvent.ngAfterViewInit 0, CEvent.tick 0 [⟨0⟩],
        CEvent.ngOnChanges (some [10, 20, 30]) 1]
      1 1 3 [⟨0⟩, ⟨1⟩, ⟨2⟩, ⟨0⟩, ⟨1⟩] ⟨0⟩ (by decide) (by decide) (by decide)⟩

/-- C3 counterexample: with the sequence shrunk to [10, 20] and five slots
still encoding indices 0, 1, 2, 0, 1, the reconciliation binds all five
slots: the stale slot (encoded index 2) is not skipped — a component is
created for it with undefined (none) injected data — so the claimed
IndexOutOfRange failure and skip do not happen. -/
theorem c3_stale_slot_counterexample :
    ((step (runEvents (initState [10, 20]) [CEvent.ngAfterViewInit 0])
        (CEvent.tick 0 [⟨0⟩, ⟨1⟩, ⟨2⟩, ⟨0⟩, ⟨1⟩])).components.getD []).length = 5 ∧
    ¬(((step (runEvents (initState [10, 20]) [CEvent.ngAfterViewInit 0])
        (CEvent.tick 0 [⟨0⟩, ⟨1⟩, ⟨2⟩, ⟨0⟩, ⟨1⟩])).components.getD []).length = 4) ∧
    (((step (runEvents (initState [10, 20]) [CEvent.ngAfterViewInit 0])
        (CEvent.tick 0 [⟨0⟩, ⟨1⟩, ⟨2⟩, ⟨0⟩, ⟨1⟩])).components.getD []).get? 2).map
      (fun c => c.iterationId) = some none ∧
    ((step (runEvents (initState [10, 20]) [CEvent.ngAfterViewInit 0])
        (CEvent.tick 0 [⟨0⟩, ⟨1⟩, ⟨2⟩, ⟨0⟩, ⟨1⟩])).components.getD []).map
      (fun c => c.iterationId)
      = [some 10, some 20, none, some 10, some 20] := by
  decide

/-- C3 amended: for every discovered slot whose encoded logical index has no
corresponding item identifier, the bind operation does not fail and the slot
is not skipped: a component is still created for that slot, with undefined
(none) injected data, and the remaining discovered slots bind normally, the
component count matching the slot count. -/
theorem c3_stale_slot_binds_undefined (ids0 : List Int) (tr : List CEvent)
    (t p k : Nat) (slots : List Slot) (slot : Slot)
    (hp : (runEvents (initState ids0) tr).pendingAt = some p)
    (hpt : p ≤ t)
    (hslot : slots.get? k = some slot)
    (hoor : (runEvents (initState ids0) tr).ids.length ≤ slot.index) :
    ((step (runEvents (initState ids0) tr) (CEvent.tick t slots)).components.getD
        []).length = slots.length ∧
    (((step (runEvents (initState ids0) tr) (CEvent.tick t slots)).components.getD
        []).get? k).map (fun c => c.iterationId) = some none := by
  have hstep := step_tick_fires (runEvents (initState ids0) tr) t p slots hp hpt
  rw [hstep]
  have hcomp : ((reinitializeImpl
        { runEvents (initState ids0) tr with pendingAt := none } slots).1).components
      = some (initializeFn (runEvents (initState ids0) tr).ids slots
          (runEvents (initState ids0) tr).nextId).1 := rfl
  rw [hcomp]
  have hg := initializeFn_get (runEvents (initState ids0) tr).ids slots
    (runEvents (initState ids0) tr).nextId k slot hslot
  have hnone : (runEvents (initState ids0) tr).ids.get? slot.index = none :=
    List.get?_len_le hoor
  constructor
  · simp [initializeFn_length]
  · simp only [Option.getD_some]
    rw [hg, hnone]
    rfl

/-- C3 amended witness: sequence [10, 20] with a slot still encoding logical
index 2 — the rebuild produces five components and the stale slot's component
carries undefined data. -/
theorem c3_stale_slot_binds_undefined_witness :
    ((runEvents (initState [10, 20]) [CEvent.ngAfterViewInit 0]).pendingAt = some 0 ∧
      0 ≤ 0 ∧
      ([⟨0⟩, ⟨1⟩, ⟨2⟩, ⟨0⟩, ⟨1⟩] : List Slot).get? 2 = some ⟨2⟩ ∧
      (runEvents (initState [10, 20]) [CEvent.ngAfterViewInit 0]).ids.length
        ≤ (Slot.mk 2).index) ∧
    (((step (runEvents (initState [10, 20]) [CEvent.ngAfterViewInit 0])
        (CEvent.tick 0 [⟨0⟩, ⟨1⟩, ⟨2⟩, ⟨0⟩, ⟨1⟩])).components.getD []).length
          = ([⟨0⟩, ⟨1⟩, ⟨2⟩, ⟨0⟩, ⟨1⟩] : List Slot).length ∧
      (((step (runEvents (initState [10, 20]) [CEvent.ngAfterViewInit 0])
          (CEvent.tick 0 [⟨0⟩, ⟨1⟩, ⟨2⟩, ⟨0⟩, ⟨1⟩])).components.getD []).get? 2).map
        (fun c => c.iterationId) = some none) :=
  ⟨⟨by decide, by decide, by decide, by decide⟩,
    c3_stale_slot_binds_undefined [10, 20] [CEvent.ngAfterViewInit 0] 0 0 2
      [⟨0⟩, ⟨1⟩, ⟨2⟩, ⟨0⟩, ⟨1⟩] ⟨2⟩ (by decide) (by decide) (by decide) (by decide)⟩

/-- C4: after ngOnDestroy the subject is completed, the pending debounced
rebuild is cancelled, the components are all destroyed and dropped, and no
sequence of engine events (index callbacks, timer checks) delivered
afterwards changes the state in any way: no reconciliation, no binding
creation, no publication. -/
theorem c4_teardown_quiescence (ids0 : List Int) (tr post : List CEvent)
    (hpost : ∀ e ∈ post, isEngineEvent e = true) :
    (runEvents (initState ids0) (tr ++ [CEvent.ngOnDestroy])).subjectClosed = true ∧
    (runEvents (initState ids0) (tr ++ [CEvent.ngOnDestroy])).pendingAt = none ∧
    (runEvents (initState ids0) (tr ++ [CEvent.ngOnDestroy])).components = none ∧
    (runEvents (initState ids0) (tr ++ [CEvent.ngOnDestroy])).destroyedIds
      = (runEvents (initState ids0) tr).destroyedIds
        ++ destroyFn (runEvents (initState ids0) tr).components ∧
    runEvents (runEvents (initState ids0) (tr ++ [CEvent.ngOnDestroy])) post
      = runEvents (initState ids0) (tr ++ [CEvent.ngOnDestroy]) := by
  have hsplit : runEvents (initState ids0) (tr ++ [CEvent.ngOnDestroy])
      = step (runEvents (initState ids0) tr) CEvent.ngOnDestroy := by
    rw [runEvents_append]
    rfl
  rw [hsplit]
  exact ⟨rfl, rfl, rfl, rfl,
    runEvents_quiescent _ post rfl rfl hpost⟩

/-- C4 witness: a component attached, rebuilt once and then destroyed absorbs
a subsequent index callback and timer check without any state change. -/
theorem c4_teardown_quiescence_witness :
    (∀ e ∈ [CEvent.indexChanged 0, CEvent.tick 9 [⟨0⟩]], isEngineEvent e = true) ∧
    ((runEvents (initState [1])
        ([CEvent.ngAfterViewInit 0, CEvent.tick 0 [⟨0⟩]]
          ++ [CEvent.ngOnDestroy])).subjectClosed = true ∧
      (runEvents (initState [1])
        ([CEvent.ngAfterViewInit 0, CEvent.tick 0 [⟨0⟩]]
          ++ [CEvent.ngOnDestroy])).pendingAt = none ∧
      (runEvents (initState [1])
        ([CEvent.ngAfterViewInit 0, CEvent.tick 0 [⟨0⟩]]
          ++ [CEvent.ngOnDestroy])).components = none ∧
      (runEvents (initState [1])
        ([CEvent.ngAfterViewInit 0, CEvent.tick 0 [⟨0⟩]]
          ++ [CEvent.ngOnDestroy])).destroyedIds
        = (runEvents (initState [1])
            [CEvent.ngAfterViewInit 0, CEvent.tick 0 [⟨0⟩]]).destroyedIds
          ++ destroyFn (runEvents (initState [1])
              [CEvent.ngAfterViewInit 0, CEvent.tick 0 [⟨0⟩]]).components ∧
      runEvents (runEvents (initState [1])
          ([CEvent.ngAfterViewInit 0, CEvent.tick 0 [⟨0⟩]]
            ++ [CEvent.ngOnDestroy]))
          [CEvent.indexChanged 0, CEvent.tick 9 [⟨0⟩]]
        = runEvents (initState [1])
            ([CEvent.ngAfterViewInit 0, CEvent.tick 0 [⟨0⟩]]
              ++ [CEvent.ngOnDestroy])) :=
  ⟨by decide,
    c4_teardown_quiescence [1] [CEvent.ngAfterViewInit 0, CEvent.tick 0 [⟨0⟩]]
      [CEvent.indexChanged 0, CEvent.tick 9 [⟨0⟩]] (by decide)⟩

/-- C8: on a trace with no view attachment, the component stays unpopulated —
an ids replacement updates the input but arms no rebuild — while
ngAfterViewInit arms the single first population, and an ids replacement
arriving once the swiper handle is bound arms a rebuild. -/
theorem c8_first_population_gating (ids0 : List Int) (tr : List CEvent)
    (newIds : List Int) (t t1 t2 : Nat)
    (h : ∀ e ∈ tr, isAttachEvent e = false) :
    (runEvents (initState ids0) tr).swiper = false ∧
    (runEvents (initState ids0) tr).pendingAt = none ∧
    (runEvents (initState ids0) tr).rebuilds = 0 ∧
    (runEvents (initState ids0) tr).components = none ∧
    (step (runEvents (initState ids0) tr)
        (CEvent.ngOnChanges (some newIds) t)).pendingAt = none ∧
    (step (runEvents (initState ids0) tr)
        (CEvent.ngOnChanges (some newIds) t)).rebuilds = 0 ∧
    (step (runEvents (initState ids0) tr) (CEvent.ngAfterViewInit t1)).pendingAt
      = some (t1 + reinitializeWait) ∧
    (step (step (runEvents (initState ids0) tr) (CEvent.ngAfterViewInit t1))
        (CEvent.ngOnChanges (some newIds) t2)).pendingAt
      = some (t2 + reinitializeWait) := by
  obtain ⟨hsw, hp, hr, hc⟩ := preAttach_run ids0 tr h
  refine ⟨hsw, hp, hr, hc, ?_, ?_, rfl, rfl⟩
  · simp only [step]
    rw [if_neg (by simp [hsw])]
    exact hp
  · simp only [step]
    rw [if_neg (by simp [hsw])]
    exact hr

/-- C8 witness: after an early ids replacement and an engine callback (no
attachment), nothing is armed and nothing was rebuilt; a further ids change
still arms nothing, while attachment at time 4 arms the first population for
time 4 and a post-attachment ids change at time 6 arms a rebuild for time
6. -/
theorem c8_first_population_gating_witness :
    (∀ e ∈ [CEvent.ngOnChanges (some [7]) 0, CEvent.indexChanged 2],
        isAttachEvent e = false) ∧
    ((runEvents (initState [1])
        [CEvent.ngOnChanges (some [7]) 0, CEvent.indexChanged 2]).swiper = false ∧
      (runEvents (initState [1])
        [CEvent.ngOnChanges (some [7]) 0, CEvent.indexChanged 2]).pendingAt = none ∧
      (runEvents (initState [1])
        [CEvent.ngOnChanges (some [7]) 0, CEvent.indexChanged 2]).rebuilds = 0 ∧
      (runEvents (initState [1])
        [CEvent.ngOnChanges (some [7]) 0, CEvent.indexChanged 2]).components = none ∧
      (step (runEvents (initState [1])
          [CEvent.ngOnChanges (some [7]) 0, CEvent.indexChanged 2])
        (CEvent.ngOnChanges (some [8]) 3)).pendingAt = none ∧
      (step (runEvents (initState [1])
          [CEvent.ngOnChanges (some [7]) 0, CEvent.indexChanged 2])
        (CEvent.ngOnChanges (some [8]) 3)).rebuilds = 0 ∧
      (step (runEvents (initState [1])
          [CEvent.ngOnChanges (some [7]) 0, CEvent.indexChanged 2])
        (CEvent.ngAfterViewInit 4)).pendingAt = some (4 + reinitializeWait) ∧
      (step (step (runEvents (initState [1])
            [CEvent.ngOnChanges (some [7]) 0, CEvent.indexChanged 2])
          (CEvent.ngAfterViewInit 4))
        (CEvent.ngOnChanges (some [8]) 6)).pendingAt = some (6 + reinitializeWait)) :=
  ⟨by decide,
    c8_first_population_gating [1]
      [CEvent.ngOnChanges (some [7]) 0, CEvent.indexChanged 2] [8] 3 4 6 (by decide)⟩
